import Mathlib

set_option maxRecDepth 8000

/-!
Verification development for the audio-visualizer core of
darkfloor.art-player, embedding src/hooks/useAudioVisualizer.ts.

Shallow embedding conventions:
- Web Audio nodes are identified by natural-number ids; `connect(a, b)`
  calls are recorded as directed edges `(a, b)` on the component state.
- `AnalyserNode` carries the four configurable parameters; the derived
  `frequencyBinCount` is `fftSize / 2` as in the Web Audio specification.
- The external module `audioContextManager` is not part of the sources:
  `getOrCreateAudioConnection` is modelled as an environment input
  (`InitEnv.connectionResult`), and `ensureConnectionChain` is modelled
  from the spec (section 4.1).
- JavaScript exceptions are modelled by boolean environment flags naming
  the operation that throws; a function that runs under the outer
  `try`/`catch` returns the partial state reached at the throw point
  together with a flag telling whether an exception escaped to the outer
  `catch` (mutations made before a throw persist, as in JavaScript).
- `Uint8Array` cells are bytes: platform sample data is reduced `% 256`.
-/

/-- Model of a Web Audio AnalyserNode: the node identity plus the four
configurable parameters set by `useAudioVisualizer`. -/
structure AnalyserNode where
  id : Nat
  fftSize : Nat
  smoothingTimeConstant : ℚ
  minDecibels : Int
  maxDecibels : Int
deriving DecidableEq, Repr

/-- Derived read-only property of an analyser: `frequencyBinCount` is half
of `fftSize` (Web Audio semantics). -/
def frequencyBinCount (a : AnalyserNode) : Nat := a.fftSize / 2

/-- Model of an AudioContext; only `sampleRate` is read by the hook. -/
structure AudioContextModel where
  sampleRate : Nat
deriving DecidableEq, Repr

/-- Model of the shared `AudioConnection` handed out by the registry
(`audioContextManager`): source node, destination, ordered filter chain,
and the optional shared analyser. -/
structure AudioConnection where
  audioContext : AudioContextModel
  sourceNode : Nat
  destinationNode : Nat
  filters : List Nat
  analyser : Option AnalyserNode
deriving DecidableEq, Repr

/-- Caller options of `useAudioVisualizer` (all fields optional). -/
structure AudioVisualizerOptions where
  fftSize : Option Nat := none
  smoothingTimeConstant : Option ℚ := none
  minDecibels : Option Int := none
  maxDecibels : Option Int := none
deriving DecidableEq, Repr

/-- Destructuring default: `fftSize = 128`. -/
def AudioVisualizerOptions.fftSizeD (o : AudioVisualizerOptions) : Nat :=
  o.fftSize.getD 128

/-- Destructuring default: `smoothingTimeConstant = 0.8`. -/
def AudioVisualizerOptions.smoothingD (o : AudioVisualizerOptions) : ℚ :=
  o.smoothingTimeConstant.getD 0.8

/-- Destructuring default: `minDecibels = -90`. -/
def AudioVisualizerOptions.minDecibelsD (o : AudioVisualizerOptions) : Int :=
  o.minDecibels.getD (-90)

/-- Destructuring default: `maxDecibels = -10`. -/
def AudioVisualizerOptions.maxDecibelsD (o : AudioVisualizerOptions) : Int :=
  o.maxDecibels.getD (-10)

/-- Component state of one `useAudioVisualizer` instance: the refs and
React state of the hook, plus the recorded audio-graph edges and a fresh
node-id allocator for `createAnalyser`. -/
structure VisualizerState where
  audioElement : Option Nat
  audioContextRef : Option AudioContextModel
  analyserRef : Option AnalyserNode
  sourceRef : Option Nat
  animationFrameRef : Option Nat
  frequencyData : List Nat
  isInitialized : Bool
  edges : List (Nat × Nat)
  nextNodeId : Nat
deriving DecidableEq, Repr

/-- Environment for one run of `initialize`: the registry result for
`getOrCreateAudioConnection` (`Except.error` = it threw, `Except.ok none`
= source unavailable), and flags naming which platform operation throws. -/
structure InitEnv where
  connectionResult : Except Unit (Option AudioConnection)
  createSharedThrows : Bool
  createCustomThrows : Bool
  connectThrows : Bool
  ensureChainThrows : Bool
deriving Repr

/-- Nodes of the shared connection chain, in series order.
Modelled from the spec: the filter-chain nodes are linked in series into
the destination (section 4.1), with the optional shared analyser sitting
between the last filter and the destination (section 3: the chain always
terminates at the playback destination). -/
def chainNodes (c : AudioConnection) : List Nat :=
  c.sourceNode :: c.filters
    ++ (match c.analyser with
        | some a => [a.id]
        | none => [])
    ++ [c.destinationNode]

/-- Directed edges linking a list of nodes in series. -/
def seriesEdges : List Nat → List (Nat × Nat)
  | [] => []
  | [_] => []
  | a :: b :: rest => (a, b) :: seriesEdges (b :: rest)

/-- Edges laid down by `ensureConnectionChain` for a connection. -/
def chainEdges (c : AudioConnection) : List (Nat × Nat) :=
  seriesEdges (chainNodes c)

/-- Modelled from the spec: `ensureConnectionChain` (in the external
`audioContextManager`, not under src/) idempotently links the connection
chain in series into the destination; it touches only the chain nodes of
the connection, never a private analyser tap. -/
def ensureConnectionChain (c : AudioConnection) (s : VisualizerState) :
    VisualizerState :=
  { s with edges := s.edges ++ chainEdges c }

/-- Embeds the tail of the `initialize` body from the point where the
shared analyser exists: creation and configuration of the private custom
analyser, the inner try/catch around its parallel hookup, the ref
assignments, `ensureConnectionChain`, and the buffer allocation.
`connection` is the connection after the shared-analyser assignment and
`analyser` is the shared analyser (the code reads `bufferLength` from
it). Returns the state together with `true` when an exception escaped to
the outer catch. -/
def initVizAfterShared (opts : AudioVisualizerOptions) (env : InitEnv)
    (s : VisualizerState) (connection : AudioConnection)
    (analyser : AnalyserNode) : VisualizerState × Bool :=
  if env.createCustomThrows then (s, true)
  else
    -- const customAnalyser = connection.audioContext.createAnalyser();
    -- customAnalyser.fftSize = fftSize; ... analyserRef.current = customAnalyser;
    let customAnalyser : AnalyserNode :=
      { id := s.nextNodeId
        fftSize := opts.fftSizeD
        smoothingTimeConstant := opts.smoothingD
        minDecibels := opts.minDecibelsD
        maxDecibels := opts.maxDecibelsD }
    let s1 := { s with nextNodeId := s.nextNodeId + 1,
                       analyserRef := some customAnalyser }
    -- inner try: connect in parallel off the last filter, or off the source;
    -- a throw here is caught, logged, and execution continues
    let s2 :=
      if env.connectThrows then s1
      else
        match connection.filters.getLast? with
        | some lastFilter =>
            { s1 with edges := s1.edges ++ [(lastFilter, customAnalyser.id)] }
        | none =>
            { s1 with edges := s1.edges ++ [(connection.sourceNode, customAnalyser.id)] }
    -- audioContextRef.current = connection.audioContext;
    -- sourceRef.current = connection.sourceNode;
    let s3 := { s2 with audioContextRef := some connection.audioContext,
                        sourceRef := some connection.sourceNode }
    if env.ensureChainThrows then (s3, true)
    else
      let s4 := ensureConnectionChain connection s3
      -- const bufferLength = analyser.frequencyBinCount;  (shared analyser!)
      -- setFrequencyData(new Uint8Array(bufferLength));
      let s5 := { s4 with
                    frequencyData := List.replicate (frequencyBinCount analyser) 0 }
      ({ s5 with isInitialized := true }, false)

/-- Embeds the body of the outer `try` of `initialize` in
src/hooks/useAudioVisualizer.ts: registry acquisition, the silent skip
when the connection is unavailable, and creation of the shared analyser
when the connection has none (fftSize 2048, smoothing 0.75, Web Audio
default decibel range). -/
def initVizBody (opts : AudioVisualizerOptions) (env : InitEnv)
    (s : VisualizerState) : VisualizerState × Bool :=
  match env.connectionResult with
  | Except.error _ => (s, true)
  | Except.ok none => (s, false)
  | Except.ok (some connection0) =>
    match connection0.analyser with
    | some sharedAnalyser =>
        initVizAfterShared opts env s connection0 sharedAnalyser
    | none =>
        if env.createSharedThrows then (s, true)
        else
          let sharedAnalyser : AnalyserNode :=
            { id := s.nextNodeId
              fftSize := 2048
              smoothingTimeConstant := 0.75
              minDecibels := -100
              maxDecibels := -30 }
          let connection := { connection0 with analyser := some sharedAnalyser }
          initVizAfterShared opts env
            { s with nextNodeId := s.nextNodeId + 1 } connection sharedAnalyser

/-- Embeds `initialize` from src/hooks/useAudioVisualizer.ts (named
`initViz` because the source name is a Lean keyword): the early-return
guard, then the body under the outer `try`; an exception reaching the
outer `catch` is logged and the partial state is kept. -/
def initViz (opts : AudioVisualizerOptions) (env : InitEnv)
    (s : VisualizerState) : VisualizerState :=
  if s.audioElement.isNone || s.isInitialized || s.audioContextRef.isSome then s
  else (initVizBody opts env s).1

/-- Platform sample data: the bytes `getByteFrequencyData` and
`getByteTimeDomainData` would write, indexed by analyser id and bin. -/
structure SampleEnv where
  freqByte : Nat → Nat → Nat
  timeByte : Nat → Nat → Nat

/-- Embeds `getFrequencyData`: empty array when no analyser exists,
otherwise a byte array of length `frequencyBinCount` filled from the
analyser held in `analyserRef`. -/
def getFrequencyData (env : SampleEnv) (s : VisualizerState) : List Nat :=
  match s.analyserRef with
  | none => []
  | some a => (List.range (frequencyBinCount a)).map (fun i => env.freqByte a.id i % 256)

/-- Embeds `getTimeDomainData`: same shape as `getFrequencyData` but
reading the time-domain bytes. -/
def getTimeDomainData (env : SampleEnv) (s : VisualizerState) : List Nat :=
  match s.analyserRef with
  | none => []
  | some a => (List.range (frequencyBinCount a)).map (fun i => env.timeByte a.id i % 256)

/-- Embeds `getSampleRate`: `audioContextRef.current?.sampleRate ?? 44100`. -/
def getSampleRate (s : VisualizerState) : Nat :=
  match s.audioContextRef with
  | some ctx => ctx.sampleRate
  | none => 44100

/-- Embeds `getFFTSize`: `analyserRef.current?.fftSize ?? fftSize`. -/
def getFFTSize (opts : AudioVisualizerOptions) (s : VisualizerState) : Nat :=
  match s.analyserRef with
  | some a => a.fftSize
  | none => opts.fftSizeD

/-- Embeds the unmount cleanup effect: the loop is stopped and every ref
is cleared, `isInitialized` reset to false. -/
def cleanupViz (s : VisualizerState) : VisualizerState :=
  { s with audioContextRef := none, analyserRef := none, sourceRef := none,
           animationFrameRef := none, isInitialized := false }

/-- Guard context under which the early return of `initViz` does not
fire: an audio element is present, not yet initialized, no context ref. -/
def CanInit (s : VisualizerState) : Prop :=
  s.audioElement ≠ none ∧ s.isInitialized = false ∧ s.audioContextRef = none

/-- Environment of a fully successful `initViz` run against `conn`. -/
def SuccessEnv (env : InitEnv) (conn : AudioConnection) : Prop :=
  env.connectionResult = Except.ok (some conn) ∧
  env.createSharedThrows = false ∧ env.createCustomThrows = false ∧
  env.connectThrows = false ∧ env.ensureChainThrows = false

/-- Well-formed ids: every node id already present on the connection is
below the component's fresh-id allocator. -/
def ConnWF (conn : AudioConnection) (s : VisualizerState) : Prop :=
  conn.sourceNode < s.nextNodeId ∧ conn.destinationNode < s.nextNodeId ∧
  (∀ f ∈ conn.filters, f < s.nextNodeId) ∧
  (match conn.analyser with
   | some a => a.id < s.nextNodeId
   | none => True)

/-- The shared analyser in force after a successful run: the one already
on the connection, else the one `initViz` creates (fftSize 2048). -/
def sharedAnalyserAfter (conn : AudioConnection) (s : VisualizerState) :
    AnalyserNode :=
  match conn.analyser with
  | some a => a
  | none =>
      { id := s.nextNodeId, fftSize := 2048, smoothingTimeConstant := 0.75,
        minDecibels := -100, maxDecibels := -30 }

/-- Id the custom analyser receives from the allocator. -/
def customIdAfter (conn : AudioConnection) (s : VisualizerState) : Nat :=
  match conn.analyser with
  | some _ => s.nextNodeId
  | none => s.nextNodeId + 1

/-- The private custom analyser created by a run of `initViz`. -/
def customAnalyserAfter (opts : AudioVisualizerOptions)
    (conn : AudioConnection) (s : VisualizerState) : AnalyserNode :=
  { id := customIdAfter conn s
    fftSize := opts.fftSizeD
    smoothingTimeConstant := opts.smoothingD
    minDecibels := opts.minDecibelsD
    maxDecibels := opts.maxDecibelsD }

/-- The connection as seen by `ensureConnectionChain`: the shared
analyser has been assigned if it was absent. -/
def connAfter (conn : AudioConnection) (s : VisualizerState) :
    AudioConnection :=
  { conn with analyser := some (sharedAnalyserAfter conn s) }

/-- The node whose output the custom analyser is connected from: last
filter of the chain when filters exist, else the source node. -/
def connectTarget (conn : AudioConnection) : Nat :=
  match conn.filters.getLast? with
  | some lastFilter => lastFilter
  | none => conn.sourceNode

/-- The parallel-tap edge, absent when the hookup threw. -/
def connectEdgeList (env : InitEnv) (conn : AudioConnection) (cid : Nat) :
    List (Nat × Nat) :=
  if env.connectThrows then [] else [(connectTarget conn, cid)]
/-- Characterization of a run of `initViz` in which the guard passes, the
connection is available, and none of the fatal steps throw (the parallel
hookup may or may not throw). -/
lemma initViz_run (opts : AudioVisualizerOptions) (env : InitEnv)
    (s : VisualizerState) (conn : AudioConnection)
    (hs : CanInit s) (hc : env.connectionResult = Except.ok (some conn))
    (h1 : env.createSharedThrows = false) (h2 : env.createCustomThrows = false)
    (h3 : env.ensureChainThrows = false) :
    initViz opts env s =
      { s with
        audioContextRef := some conn.audioContext
        analyserRef := some (customAnalyserAfter opts conn s)
        sourceRef := some conn.sourceNode
        frequencyData := List.replicate (frequencyBinCount (sharedAnalyserAfter conn s)) 0
        isInitialized := true
        edges := s.edges ++ connectEdgeList env conn (customIdAfter conn s)
                   ++ chainEdges (connAfter conn s)
        nextNodeId := customIdAfter conn s + 1 } := by
  obtain ⟨hel, hinit, hctx⟩ := hs
  have hne : s.audioElement.isNone = false := by
    cases hE : s.audioElement with
    | none => exact absurd hE hel
    | some el => rfl
  have hso : s.audioContextRef.isSome = false := by rw [hctx]; rfl
  obtain ⟨cctx, csrc, cdst, cfil, can⟩ := conn
  unfold initViz
  rw [hne, hinit, hso]
  simp only [Bool.or_self, Bool.or_false, Bool.false_or, if_false]
  unfold initVizBody
  rw [hc]
  cases can with
  | some a =>
    cases hct : env.connectThrows with
    | false =>
      cases hL : cfil.getLast? with
      | some lf =>
        simp [initVizAfterShared, h2, h3, hct, hL, ensureConnectionChain,
          customAnalyserAfter, customIdAfter, sharedAnalyserAfter, connAfter,
          connectEdgeList, connectTarget]
      | none =>
        simp [initVizAfterShared, h2, h3, hct, hL, ensureConnectionChain,
          customAnalyserAfter, customIdAfter, sharedAnalyserAfter, connAfter,
          connectEdgeList, connectTarget]
    | true =>
      simp [initVizAfterShared, h2, h3, hct, ensureConnectionChain,
        customAnalyserAfter, customIdAfter, sharedAnalyserAfter, connAfter,
        connectEdgeList, connectTarget]
  | none =>
    rw [h1]
    cases hct : env.connectThrows with
    | false =>
      cases hL : cfil.getLast? with
      | some lf =>
        simp [initVizAfterShared, h2, h3, hct, hL, ensureConnectionChain,
          customAnalyserAfter, customIdAfter, sharedAnalyserAfter, connAfter,
          connectEdgeList, connectTarget]
      | none =>
        simp [initVizAfterShared, h2, h3, hct, hL, ensureConnectionChain,
          customAnalyserAfter, customIdAfter, sharedAnalyserAfter, connAfter,
          connectEdgeList, connectTarget]
    | true =>
      simp [initVizAfterShared, h2, h3, hct, ensureConnectionChain,
        customAnalyserAfter, customIdAfter, sharedAnalyserAfter, connAfter,
        connectEdgeList, connectTarget]

/-- State of the visualization loop together with a deterministic model
of the host frame scheduler: `pendingFrames` holds the ids of frame
requests registered (by this component) and not yet fired or cancelled,
`nextRequestId` is the scheduler's id counter, `callbackCount` counts
deliveries of the user callback, and `analyserPresent` mirrors whether
`analyserRef.current` is non-null. -/
structure LoopState where
  analyserPresent : Bool
  animationFrameRef : Option Nat
  pendingFrames : List Nat
  nextRequestId : Nat
  callbackCount : Nat
deriving DecidableEq, Repr

/-- Model of `cancelAnimationFrame`: the id is removed from the
scheduler's pending set (a no-op for an unknown id). -/
def cancelFrame (id : Nat) (l : LoopState) : LoopState :=
  { l with pendingFrames := l.pendingFrames.erase id }

/-- Embeds the `updateData` closure of `startVisualization`: bail out if
no analyser exists, otherwise deliver the callback and schedule the next
tick (`requestAnimationFrame` returns a fresh id which is stored in
`animationFrameRef`). -/
def updateData (l : LoopState) : LoopState :=
  if l.analyserPresent then
    { l with callbackCount := l.callbackCount + 1
             pendingFrames := l.pendingFrames ++ [l.nextRequestId]
             nextRequestId := l.nextRequestId + 1
             animationFrameRef := some l.nextRequestId }
  else l

/-- Embeds `startVisualization`: no-op without an analyser, else run
`updateData` once synchronously. -/
def startVisualization (l : LoopState) : LoopState :=
  if l.analyserPresent then updateData l else l

/-- Embeds `stopVisualization`: cancel the frame request stored in
`animationFrameRef` (if any) and null the ref. -/
def stopVisualization (l : LoopState) : LoopState :=
  match l.animationFrameRef with
  | some id => { (cancelFrame id l) with animationFrameRef := none }
  | none => l

/-- Scheduler step: fire the pending frame request `id` — it is removed
from the pending set and the registered `updateData` runs; firing an id
that is not pending (already cancelled or never issued) does nothing. -/
def fireFrame (id : Nat) (l : LoopState) : LoopState :=
  if id ∈ l.pendingFrames then updateData (cancelFrame id l) else l

/-- Fire a sequence of frame ids. -/
def runFires (l : LoopState) (ids : List Nat) : LoopState :=
  List.foldl (fun l id => fireFrame id l) l ids

/-- One start/stop cycle: `startVisualization`, an arbitrary sequence of
scheduler firings, then `stopVisualization`. -/
def runCycle (l : LoopState) (ids : List Nat) : LoopState :=
  stopVisualization (runFires (startVisualization l) ids)

/-- N start/stop cycles. -/
def runCycles (l : LoopState) (cycles : List (List Nat)) : LoopState :=
  List.foldl runCycle l cycles

/-- No frame request of this loop is outstanding and no ref is held. -/
def LoopIdle (l : LoopState) : Prop :=
  l.pendingFrames = [] ∧ l.animationFrameRef = none

/-- Between ticks of a single live loop: either nothing is pending, or
exactly the one request tracked by `animationFrameRef` is pending. -/
def LoopInv (l : LoopState) : Prop :=
  l.pendingFrames = [] ∨
  ∃ k, l.animationFrameRef = some k ∧ l.pendingFrames = [k]

lemma startVisualization_inv (l : LoopState) (h : LoopIdle l) :
    LoopInv (startVisualization l) := by
  obtain ⟨hp, hr⟩ := h
  unfold startVisualization updateData
  cases ha : l.analyserPresent with
  | false => simp [LoopInv, hp]
  | true =>
    right
    exact ⟨l.nextRequestId, by simp [hp]⟩

lemma fireFrame_inv (id : Nat) (l : LoopState) (h : LoopInv l) :
    LoopInv (fireFrame id l) := by
  unfold fireFrame
  rcases h with hp | ⟨k, hr, hp⟩
  · rw [hp]
    simp [LoopInv, hp]
  · rw [hp]
    by_cases hid : id = k
    · subst hid
      simp only [List.mem_singleton, if_pos rfl]
      cases ha : l.analyserPresent with
      | false =>
        left
        simp [updateData, cancelFrame, ha, List.erase_cons_head, hp]
      | true =>
        right
        refine ⟨l.nextRequestId, ?_, ?_⟩ <;>
          simp [updateData, cancelFrame, ha, List.erase_cons_head, hp]
    · simp only [List.mem_singleton, if_neg hid]
      right
      exact ⟨k, hr, hp⟩

lemma runFires_inv (ids : List Nat) (l : LoopState) (h : LoopInv l) :
    LoopInv (runFires l ids) := by
  induction ids generalizing l with
  | nil => exact h
  | cons a rest ih =>
    exact ih _ (fireFrame_inv a l h)

lemma stopVisualization_idle (l : LoopState) (h : LoopInv l) :
    LoopIdle (stopVisualization l) := by
  unfold stopVisualization cancelFrame
  rcases h with hp | ⟨k, hr, hp⟩
  · cases hr : l.animationFrameRef with
    | none => exact ⟨hp, hr⟩
    | some id => exact ⟨by simp [hp], rfl⟩
  · rw [hr]
    exact ⟨by simp [hp], rfl⟩

lemma runCycle_idle (l : LoopState) (ids : List Nat) (h : LoopIdle l) :
    LoopIdle (runCycle l ids) :=
  stopVisualization_idle _ (runFires_inv ids _ (startVisualization_inv l h))

lemma runCycles_idle (cycles : List (List Nat)) (l : LoopState)
    (h : LoopIdle l) : LoopIdle (runCycles l cycles) := by
  induction cycles generalizing l with
  | nil => exact h
  | cons c rest ih => exact ih _ (runCycle_idle l c h)

lemma fireFrame_noop (id : Nat) (l : LoopState)
    (h : l.pendingFrames = []) : fireFrame id l = l := by
  unfold fireFrame
  rw [h]
  simp

lemma runFires_noop (ids : List Nat) (l : LoopState)
    (h : l.pendingFrames = []) : runFires l ids = l := by
  induction ids with
  | nil => rfl
  | cons a rest ih =>
    unfold runFires at ih ⊢
    simp only [List.foldl_cons, fireFrame_noop a l h]
    exact ih

/-- The value reported by `getLast?` is a member of the list. -/
lemma getLast?_mem_self : ∀ (l : List Nat) (a : Nat), l.getLast? = some a → a ∈ l
  | [], a, h => by simp at h
  | [b], a, h => by
      simp at h
      simp [h]
  | b :: c :: r, a, h => by
      rw [List.getLast?_cons_cons] at h
      exact List.mem_cons_of_mem _ (getLast?_mem_self (c :: r) a h)

/-- Both endpoints of a series edge belong to the node list. -/
lemma mem_seriesEdges : ∀ (l : List Nat) (e : Nat × Nat),
    e ∈ seriesEdges l → e.1 ∈ l ∧ e.2 ∈ l
  | [], e, h => by simp [seriesEdges] at h
  | [a], e, h => by simp [seriesEdges] at h
  | a :: b :: r, e, h => by
      rw [seriesEdges] at h
      rcases List.mem_cons.mp h with he | he
      · subst he
        exact ⟨List.mem_cons_self _ _,
               List.mem_cons_of_mem _ (List.mem_cons_self _ _)⟩
      · obtain ⟨h1, h2⟩ := mem_seriesEdges (b :: r) e he
        exact ⟨List.mem_cons_of_mem _ h1, List.mem_cons_of_mem _ h2⟩

/-- Reading the fields of `connAfter` (definitional). -/
lemma chainNodes_connAfter (conn : AudioConnection) (s : VisualizerState) :
    chainNodes (connAfter conn s)
      = conn.sourceNode :: conn.filters
          ++ [(sharedAnalyserAfter conn s).id] ++ [conn.destinationNode] := rfl

/-- The shared analyser id never exceeds the allocator. -/
lemma sharedId_le_next (conn : AudioConnection) (s : VisualizerState)
    (hwf : ConnWF conn s) :
    (sharedAnalyserAfter conn s).id ≤ s.nextNodeId := by
  obtain ⟨h1, h2, h3, h4⟩ := hwf
  unfold sharedAnalyserAfter
  cases hA : conn.analyser with
  | some a =>
    show a.id ≤ s.nextNodeId
    simp only [hA] at h4
    omega
  | none => simp

/-- The allocator never exceeds the custom analyser id. -/
lemma next_le_customId (conn : AudioConnection) (s : VisualizerState) :
    s.nextNodeId ≤ customIdAfter conn s := by
  unfold customIdAfter
  cases conn.analyser <;> simp

/-- The shared analyser id lies strictly below the custom analyser id. -/
lemma sharedId_lt_customId (conn : AudioConnection) (s : VisualizerState)
    (hwf : ConnWF conn s) :
    (sharedAnalyserAfter conn s).id < customIdAfter conn s := by
  obtain ⟨h1, h2, h3, h4⟩ := hwf
  unfold sharedAnalyserAfter customIdAfter
  cases hA : conn.analyser with
  | some a =>
    show a.id < s.nextNodeId
    simp only [hA] at h4
    exact h4
  | none =>
    show s.nextNodeId < s.nextNodeId + 1
    omega

/-- With well-formed ids, every node of the (post-assignment) shared
chain lies strictly below the id of the custom analyser. -/
lemma chainNodes_lt_customId (conn : AudioConnection) (s : VisualizerState)
    (hwf : ConnWF conn s) :
    ∀ x ∈ chainNodes (connAfter conn s), x < customIdAfter conn s := by
  have hsn := sharedId_le_next conn s hwf
  have hnc := next_le_customId conn s
  have hsc := sharedId_lt_customId conn s hwf
  obtain ⟨h1, h2, h3, h4⟩ := hwf
  intro x hx
  rw [chainNodes_connAfter] at hx
  simp only [List.mem_cons, List.mem_append, List.mem_singleton] at hx
  have hx2 : x = conn.sourceNode ∨ x ∈ conn.filters
      ∨ x = (sharedAnalyserAfter conn s).id ∨ x = conn.destinationNode := by
    tauto
  rcases hx2 with h | h | h | h
  · omega
  · have := h3 x h
    omega
  · omega
  · omega

/-- With well-formed ids, the node the custom analyser is tapped from
lies strictly below the custom analyser's id. -/
lemma connectTarget_lt_customId (conn : AudioConnection)
    (s : VisualizerState) (hwf : ConnWF conn s) :
    connectTarget conn < customIdAfter conn s := by
  have hnc := next_le_customId conn s
  obtain ⟨h1, h2, h3, h4⟩ := hwf
  unfold connectTarget
  cases hL : conn.filters.getLast? with
  | none =>
    show conn.sourceNode < customIdAfter conn s
    omega
  | some lf =>
    show lf < customIdAfter conn s
    have hmem := getLast?_mem_self conn.filters lf hL
    have := h3 lf hmem
    omega

/-- When the body of `initViz` lets an exception reach the outer catch,
the `isInitialized` flag is left untouched (the `setIsInitialized(true)`
at the end of the body was never reached). -/
lemma initVizBody_outer (opts : AudioVisualizerOptions) (env : InitEnv)
    (s : VisualizerState) :
    (initVizBody opts env s).2 = true →
    (initVizBody opts env s).1.isInitialized = s.isInitialized := by
  obtain ⟨cr, f1, f2, f3, f4⟩ := env
  rcases cr with e | oc
  · intro _
    rfl
  · rcases oc with _ | conn
    · intro h
      simp [initVizBody] at h
    · cases hA : conn.analyser <;>
        cases f1 <;> cases f2 <;> cases f3 <;> cases f4 <;>
        simp [initVizBody, initVizAfterShared, ensureConnectionChain, hA] <;>
        cases hL : conn.filters.getLast? <;>
        simp [hL]

/-- Concrete fresh component state used by the witnesses. -/
def s0 : VisualizerState :=
  { audioElement := some 0, audioContextRef := none, analyserRef := none,
    sourceRef := none, animationFrameRef := none, frequencyData := [],
    isInitialized := false, edges := [], nextNodeId := 100 }

/-- Concrete connection with no filters and no shared analyser yet. -/
def conn0 : AudioConnection :=
  { audioContext := { sampleRate := 48000 }, sourceNode := 1,
    destinationNode := 2, filters := [], analyser := none }

/-- Concrete connection with two filters and a pre-existing shared
analyser. -/
def conn1 : AudioConnection :=
  { audioContext := { sampleRate := 96000 }, sourceNode := 1,
    destinationNode := 2, filters := [10, 11],
    analyser := some { id := 5, fftSize := 256, smoothingTimeConstant := 1/2,
                       minDecibels := -80, maxDecibels := -20 } }

/-- Environment of a fully successful run against `conn0`. -/
def envOk : InitEnv :=
  { connectionResult := Except.ok (some conn0), createSharedThrows := false,
    createCustomThrows := false, connectThrows := false,
    ensureChainThrows := false }

/-- Environment in which the registry reports the source unavailable. -/
def envUnavail : InitEnv := { envOk with connectionResult := Except.ok none }

/-- Environment in which the parallel hookup (`connect`) throws. -/
def envConnectFail : InitEnv := { envOk with connectThrows := true }

/-- Environment in which `getOrCreateAudioConnection` itself throws. -/
def envAcqFail : InitEnv :=
  { envOk with connectionResult := Except.error () }

/-- Environment of a fully successful run against `conn1`. -/
def envFilters : InitEnv :=
  { envOk with connectionResult := Except.ok (some conn1) }

/-- Concrete idle loop state. -/
def l0 : LoopState :=
  { analyserPresent := true, animationFrameRef := none, pendingFrames := [],
    nextRequestId := 0, callbackCount := 0 }

/-- Concrete platform sample data. -/
def senv0 : SampleEnv :=
  { freqByte := fun _ i => i + 300, timeByte := fun _ i => 2 * i }

/-- Concrete sample data agreeing with `senv1` except at analyser 100. -/
def senv1 : SampleEnv :=
  { freqByte := fun j i => if j = 100 then 7 else i + 300
    timeByte := fun j i => if j = 100 then 9 else 2 * i }

/-- C1: the claim states the buffer allocated at the end of a successful
default-options run has the private tap's frequencyBinCount 64; on the
code the allocation reads `analyser.frequencyBinCount` from the shared
analyser (fftSize 2048), so the buffer has length 1024 ≠ 64 although the
private analyser's frequencyBinCount is 64. -/
theorem c1_counterexample_buffer :
    (initViz {} envOk s0).frequencyData.length = 1024 ∧
    (initViz {} envOk s0).analyserRef.map frequencyBinCount = some 64 ∧
    (initViz {} envOk s0).frequencyData.length ≠ 64 := by
  refine ⟨?_, ?_, ?_⟩ <;> decide

/-- C1 (amended): the frequency sample buffer allocated at the end of a
successful `initViz` run has length equal to the frequencyBinCount of
the connection's shared analyser — the pre-existing one, or the one the
run creates with fftSize 2048 (so 1024, not fftSize/2 = 64, under
defaults on a fresh connection). -/
theorem c1_amended_buffer_size (opts : AudioVisualizerOptions)
    (env : InitEnv) (s : VisualizerState) (conn : AudioConnection)
    (hs : CanInit s) (he : SuccessEnv env conn) :
    (initViz opts env s).frequencyData.length
      = frequencyBinCount (sharedAnalyserAfter conn s) ∧
    (conn.analyser = none →
      (initViz opts env s).frequencyData.length = 1024) := by
  obtain ⟨hc, h1, h2, hct, h3⟩ := he
  rw [initViz_run opts env s conn hs hc h1 h2 h3]
  refine ⟨by simp, ?_⟩
  intro hA
  rw [List.length_replicate]
  unfold sharedAnalyserAfter
  rw [hA]
  show (2048 : Nat) / 2 = 1024
  decide

/-- C1 witness: the amended statement evaluated on a concrete fresh
state and connection (with no pre-existing shared analyser). -/
theorem c1_amended_buffer_size_witness :
    (initViz {} envOk s0).frequencyData.length
      = frequencyBinCount (sharedAnalyserAfter conn0 s0) ∧
    (initViz {} envOk s0).frequencyData.length = 1024 :=
  ⟨(c1_amended_buffer_size {} envOk s0 conn0
      ⟨by decide, rfl, rfl⟩ ⟨rfl, rfl, rfl, rfl, rfl⟩).1,
   (c1_amended_buffer_size {} envOk s0 conn0
      ⟨by decide, rfl, rfl⟩ ⟨rfl, rfl, rfl, rfl, rfl⟩).2 rfl⟩

/-- C2: `getFrequencyData` and `getTimeDomainData` return empty arrays
(and never throw) while no analyser exists; after a successful
initialization both return byte arrays (every value below 256) of length
frequencyBinCount = fftSize/2 of the private analyser. -/
theorem c2_data_access (senv : SampleEnv) (t : VisualizerState)
    (opts : AudioVisualizerOptions) (env : InitEnv) (s : VisualizerState)
    (conn : AudioConnection) (ht : t.analyserRef = none)
    (hs : CanInit s) (he : SuccessEnv env conn) :
    (getFrequencyData senv t = [] ∧ getTimeDomainData senv t = []) ∧
    (getFrequencyData senv (initViz opts env s)).length = opts.fftSizeD / 2 ∧
    (getTimeDomainData senv (initViz opts env s)).length = opts.fftSizeD / 2 ∧
    (∀ b ∈ getFrequencyData senv (initViz opts env s), b < 256) ∧
    (∀ b ∈ getTimeDomainData senv (initViz opts env s), b < 256) := by
  obtain ⟨hc, h1, h2, hct, h3⟩ := he
  refine ⟨⟨by simp [getFrequencyData, ht], by simp [getTimeDomainData, ht]⟩,
    ?_, ?_, ?_, ?_⟩ <;>
    rw [initViz_run opts env s conn hs hc h1 h2 h3]
  · simp [getFrequencyData, customAnalyserAfter, frequencyBinCount]
  · simp [getTimeDomainData, customAnalyserAfter, frequencyBinCount]
  · intro b hb
    simp only [getFrequencyData, List.mem_map, List.mem_range] at hb
    obtain ⟨i, hi, hbi⟩ := hb
    omega
  · intro b hb
    simp only [getTimeDomainData, List.mem_map, List.mem_range] at hb
    obtain ⟨i, hi, hbi⟩ := hb
    omega

/-- C2 witness: the statement evaluated at concrete sample data, a
concrete uninitialized state, and a concrete successful run. -/
theorem c2_data_access_witness :
    getFrequencyData senv0 s0 = [] ∧ getTimeDomainData senv0 s0 = [] ∧
    (getFrequencyData senv0 (initViz {} envOk s0)).length
      = AudioVisualizerOptions.fftSizeD {} / 2 ∧
    (getTimeDomainData senv0 (initViz {} envOk s0)).length
      = AudioVisualizerOptions.fftSizeD {} / 2 :=
  ⟨(c2_data_access senv0 s0 {} envOk s0 conn0 rfl
      ⟨by decide, rfl, rfl⟩ ⟨rfl, rfl, rfl, rfl, rfl⟩).1.1,
   (c2_data_access senv0 s0 {} envOk s0 conn0 rfl
      ⟨by decide, rfl, rfl⟩ ⟨rfl, rfl, rfl, rfl, rfl⟩).1.2,
   (c2_data_access senv0 s0 {} envOk s0 conn0 rfl
      ⟨by decide, rfl, rfl⟩ ⟨rfl, rfl, rfl, rfl, rfl⟩).2.1,
   (c2_data_access senv0 s0 {} envOk s0 conn0 rfl
      ⟨by decide, rfl, rfl⟩ ⟨rfl, rfl, rfl, rfl, rfl⟩).2.2.1⟩

/-- C3: starting from an idle loop, after any number of start/stop
cycles (each with an arbitrary sequence of scheduler firings in
between), no frame request of this component remains pending and the
stored ref is clear; in particular any further scheduler activity leaves
the state — including the callback-delivery count — unchanged, so no
callback fires after the final `stopVisualization` returns. -/
theorem c3_stop_cancels_loop (l : LoopState) (cycles : List (List Nat))
    (ids : List Nat) (h : LoopIdle l) :
    LoopIdle (runCycles l cycles) ∧
    runFires (runCycles l cycles) ids = runCycles l cycles ∧
    (runFires (runCycles l cycles) ids).callbackCount
      = (runCycles l cycles).callbackCount := by
  have hidle := runCycles_idle cycles l h
  refine ⟨hidle, runFires_noop ids _ hidle.1, ?_⟩
  rw [runFires_noop ids _ hidle.1]

/-- C3 witness: two concrete start/stop cycles followed by stray
scheduler firings. -/
theorem c3_stop_cancels_loop_witness :
    LoopIdle (runCycles l0 [[0], [1, 7]]) ∧
    runFires (runCycles l0 [[0], [1, 7]]) [2, 3]
      = runCycles l0 [[0], [1, 7]] ∧
    (runFires (runCycles l0 [[0], [1, 7]]) [2, 3]).callbackCount
      = (runCycles l0 [[0], [1, 7]]).callbackCount :=
  c3_stop_cancels_loop l0 [[0], [1, 7]] [2, 3] ⟨rfl, rfl⟩

/-- C4: when the registry reports the playable source unavailable,
`initViz` returns the state unchanged and no exception reaches the outer
catch: nothing is initialized, no analyser or buffer is created. -/
theorem c4_unavailable_silent_skip (opts : AudioVisualizerOptions)
    (env : InitEnv) (s : VisualizerState)
    (hc : env.connectionResult = Except.ok none) :
    initVizBody opts env s = (s, false) ∧ initViz opts env s = s := by
  have hbody : initVizBody opts env s = (s, false) := by
    unfold initVizBody
    rw [hc]
  refine ⟨hbody, ?_⟩
  unfold initViz
  by_cases hg : (s.audioElement.isNone || s.isInitialized || s.audioContextRef.isSome) = true
  · rw [if_pos hg]
  · rw [if_neg hg, hbody]

/-- C4 witness: the unavailable environment on a concrete fresh state. -/
theorem c4_unavailable_silent_skip_witness :
    initVizBody {} envUnavail s0 = (s0, false) ∧
    initViz {} envUnavail s0 = s0 :=
  c4_unavailable_silent_skip {} envUnavail s0 rfl

/-- C5: the claim says a node-hookup failure leaves the component
visualization-disabled with `isInitialized` false; on the code the inner
catch swallows the hookup failure and initialization continues, ending
with `isInitialized = true`. -/
theorem c5_counterexample_hookup_failure :
    envConnectFail.connectThrows = true ∧
    (initViz {} envConnectFail s0).isInitialized = true := by
  refine ⟨rfl, ?_⟩
  decide

/-- C5 (amended): every exception inside `initViz` is caught and none
propagates (the embedding of the body is total and flags the outer
catch); a failure reaching the outer catch leaves `isInitialized` on its
prior (false) value, while a node-hookup failure while connecting the
custom analyser is swallowed by the inner catch and initialization runs
to completion — `isInitialized` becomes true and only the parallel-tap
edge is missing. -/
theorem c5_amended_exception_policy (opts : AudioVisualizerOptions)
    (env : InitEnv) (s : VisualizerState) (conn : AudioConnection)
    (hinit : s.isInitialized = false) :
    ((initVizBody opts env s).2 = true →
      (initViz opts env s).isInitialized = false) ∧
    (CanInit s → env.connectionResult = Except.ok (some conn) →
      env.createSharedThrows = false → env.createCustomThrows = false →
      env.ensureChainThrows = false → env.connectThrows = true →
      (initViz opts env s).isInitialized = true ∧
      (initViz opts env s).edges = s.edges ++ chainEdges (connAfter conn s)) := by
  constructor
  · intro hex
    unfold initViz
    by_cases hg : (s.audioElement.isNone || s.isInitialized || s.audioContextRef.isSome) = true
    · rw [if_pos hg]
      exact hinit
    · rw [if_neg hg, initVizBody_outer opts env s hex]
      exact hinit
  · intro hs hc h1 h2 h3 hct
    rw [initViz_run opts env s conn hs hc h1 h2 h3]
    refine ⟨rfl, ?_⟩
    simp [connectEdgeList, hct]

/-- C5 witness: the amended statement on a concrete fresh state, for an
environment where acquisition throws (outer catch, stays uninitialized)
and one where only the hookup throws (inner catch, completes). -/
theorem c5_amended_exception_policy_witness :
    (initViz {} envAcqFail s0).isInitialized = false ∧
    (initViz {} envConnectFail s0).isInitialized = true ∧
    (initViz {} envConnectFail s0).edges
      = s0.edges ++ chainEdges (connAfter conn0 s0) :=
  ⟨(c5_amended_exception_policy {} envAcqFail s0 conn0 rfl).1 rfl,
   ((c5_amended_exception_policy {} envConnectFail s0 conn0 rfl).2
      ⟨by decide, rfl, rfl⟩ rfl rfl rfl rfl rfl).1,
   ((c5_amended_exception_policy {} envConnectFail s0 conn0 rfl).2
      ⟨by decide, rfl, rfl⟩ rfl rfl rfl rfl rfl).2⟩

/-- C6: a successful run connects the private analyser in parallel —
one incoming edge from the last filter when filters exist, from the
source node otherwise — and the private analyser has no outgoing edge at
all, in particular none to the destination, so the audible path is
untouched. -/
theorem c6_parallel_readonly_tap (opts : AudioVisualizerOptions)
    (env : InitEnv) (s : VisualizerState) (conn : AudioConnection)
    (hs : CanInit s) (he : SuccessEnv env conn) (hwf : ConnWF conn s)
    (hedges : s.edges = []) :
    ∃ c, (initViz opts env s).analyserRef = some c ∧
      (conn.filters ≠ [] → ∃ lf, conn.filters.getLast? = some lf ∧
        (lf, c.id) ∈ (initViz opts env s).edges) ∧
      (conn.filters = [] →
        (conn.sourceNode, c.id) ∈ (initViz opts env s).edges) ∧
      (∀ e ∈ (initViz opts env s).edges, e.1 ≠ c.id) ∧
      (c.id, conn.destinationNode) ∉ (initViz opts env s).edges := by
  obtain ⟨hc, h1, h2, hct, h3⟩ := he
  rw [initViz_run opts env s conn hs hc h1 h2 h3]
  have hchain : ∀ e ∈ chainEdges (connAfter conn s),
      e.1 < customIdAfter conn s := by
    intro e hee
    have hm := (mem_seriesEdges (chainNodes (connAfter conn s)) e hee).1
    exact chainNodes_lt_customId conn s hwf e.1 hm
  have hno : ∀ e ∈ (s.edges ++ connectEdgeList env conn (customIdAfter conn s)
      ++ chainEdges (connAfter conn s)), e.1 ≠ customIdAfter conn s := by
    intro e hee
    rw [hedges] at hee
    simp [connectEdgeList, hct] at hee
    rcases hee with rfl | hee
    · exact Nat.ne_of_lt (connectTarget_lt_customId conn s hwf)
    · exact Nat.ne_of_lt (hchain e hee)
  refine ⟨customAnalyserAfter opts conn s, rfl, ?_, ?_, hno, ?_⟩
  · intro hne
    cases hL : conn.filters.getLast? with
    | none => exact absurd (List.getLast?_eq_none_iff.mp hL) hne
    | some lf =>
      refine ⟨lf, rfl, ?_⟩
      have : connectTarget conn = lf := by
        unfold connectTarget
        rw [hL]
      simp [hedges, connectEdgeList, hct, customAnalyserAfter, this]
  · intro hnil
    have : connectTarget conn = conn.sourceNode := by
      unfold connectTarget
      rw [hnil]
      rfl
    simp [hedges, connectEdgeList, hct, customAnalyserAfter, this]
  · intro hin
    exact hno _ hin rfl

/-- C6 witness: concrete runs against a filterless connection and a
connection with filters and a pre-existing shared analyser. -/
theorem c6_parallel_readonly_tap_witness :
    (∃ c, (initViz {} envOk s0).analyserRef = some c ∧
      (conn0.filters ≠ [] → ∃ lf, conn0.filters.getLast? = some lf ∧
        (lf, c.id) ∈ (initViz {} envOk s0).edges) ∧
      (conn0.filters = [] →
        (conn0.sourceNode, c.id) ∈ (initViz {} envOk s0).edges) ∧
      (∀ e ∈ (initViz {} envOk s0).edges, e.1 ≠ c.id) ∧
      (c.id, conn0.destinationNode) ∉ (initViz {} envOk s0).edges) ∧
    (∃ c, (initViz {} envFilters s0).analyserRef = some c ∧
      (conn1.filters ≠ [] → ∃ lf, conn1.filters.getLast? = some lf ∧
        (lf, c.id) ∈ (initViz {} envFilters s0).edges) ∧
      (conn1.filters = [] →
        (conn1.sourceNode, c.id) ∈ (initViz {} envFilters s0).edges) ∧
      (∀ e ∈ (initViz {} envFilters s0).edges, e.1 ≠ c.id) ∧
      (c.id, conn1.destinationNode) ∉ (initViz {} envFilters s0).edges) :=
  ⟨c6_parallel_readonly_tap {} envOk s0 conn0
      ⟨by decide, rfl, rfl⟩ ⟨rfl, rfl, rfl, rfl, rfl⟩
      ⟨by decide, by decide, by decide, show True by trivial⟩ rfl,
   c6_parallel_readonly_tap {} envFilters s0 conn1
      ⟨by decide, rfl, rfl⟩ ⟨rfl, rfl, rfl, rfl, rfl⟩
      ⟨by decide, by decide, by decide, show (5 : Nat) < 100 by decide⟩ rfl⟩

/-- C7: the sampling paths depend only on the private custom analyser:
after a successful run the analyser held in `analyserRef` is distinct
from the connection's shared default analyser, and changing the platform
sample data of every analyser other than the custom one — in particular
the shared one — never changes the output of `getFrequencyData` or
`getTimeDomainData`. -/
theorem c7_reads_only_custom_tap (opts : AudioVisualizerOptions)
    (env : InitEnv) (s : VisualizerState) (conn : AudioConnection)
    (hs : CanInit s) (he : SuccessEnv env conn) (hwf : ConnWF conn s) :
    (∀ c, (initViz opts env s).analyserRef = some c →
      c.id ≠ (sharedAnalyserAfter conn s).id) ∧
    (∀ e1 e2 : SampleEnv,
      (∀ j i, j = customIdAfter conn s → e1.freqByte j i = e2.freqByte j i) →
      (∀ j i, j = customIdAfter conn s → e1.timeByte j i = e2.timeByte j i) →
      getFrequencyData e1 (initViz opts env s)
        = getFrequencyData e2 (initViz opts env s) ∧
      getTimeDomainData e1 (initViz opts env s)
        = getTimeDomainData e2 (initViz opts env s)) := by
  obtain ⟨hc, h1, h2, hct, h3⟩ := he
  have hlt := sharedId_lt_customId conn s hwf
  rw [initViz_run opts env s conn hs hc h1 h2 h3]
  constructor
  · intro c hsome
    have hce : customAnalyserAfter opts conn s = c := by
      exact Option.some.inj hsome
    rw [← hce]
    show customIdAfter conn s ≠ (sharedAnalyserAfter conn s).id
    omega
  · intro e1 e2 hf htd
    constructor
    · show (List.range (frequencyBinCount (customAnalyserAfter opts conn s))).map
          (fun i => e1.freqByte (customAnalyserAfter opts conn s).id i % 256)
        = (List.range (frequencyBinCount (customAnalyserAfter opts conn s))).map
          (fun i => e2.freqByte (customAnalyserAfter opts conn s).id i % 256)
      refine List.map_congr_left ?_
      intro i _
      rw [hf (customAnalyserAfter opts conn s).id i rfl]
    · show (List.range (frequencyBinCount (customAnalyserAfter opts conn s))).map
          (fun i => e1.timeByte (customAnalyserAfter opts conn s).id i % 256)
        = (List.range (frequencyBinCount (customAnalyserAfter opts conn s))).map
          (fun i => e2.timeByte (customAnalyserAfter opts conn s).id i % 256)
      refine List.map_congr_left ?_
      intro i _
      rw [htd (customAnalyserAfter opts conn s).id i rfl]

/-- C7 witness: a concrete run where `senv0` and `senv1` agree on the
custom analyser id 101 but disagree on the shared analyser id 100. -/
theorem c7_reads_only_custom_tap_witness :
    getFrequencyData senv0 (initViz {} envOk s0)
      = getFrequencyData senv1 (initViz {} envOk s0) ∧
    getTimeDomainData senv0 (initViz {} envOk s0)
      = getTimeDomainData senv1 (initViz {} envOk s0) :=
  (c7_reads_only_custom_tap {} envOk s0 conn0
      ⟨by decide, rfl, rfl⟩ ⟨rfl, rfl, rfl, rfl, rfl⟩
      ⟨by decide, by decide, by decide, show True by trivial⟩).2
    senv0 senv1
    (by
      intro j i hj
      have hj2 : j = 101 := hj
      simp [senv0, senv1, hj2])
    (by
      intro j i hj
      have hj2 : j = 101 := hj
      simp [senv0, senv1, hj2])

/-- C8: when the component is already initialized or the playable source
is absent, `initViz` is a no-op: the entire component state is returned
unchanged (no connection acquired, no analyser created). -/
theorem c8_noop_when_initialized_or_absent (opts : AudioVisualizerOptions)
    (env : InitEnv) (s : VisualizerState)
    (h : s.isInitialized = true ∨ s.audioElement = none) :
    initViz opts env s = s := by
  have hg : (s.audioElement.isNone || s.isInitialized || s.audioContextRef.isSome) = true := by
    rcases h with h | h <;> simp [h]
  unfold initViz
  rw [if_pos hg]

/-- C8 witness: a no-op on an already-initialized state and on a state
with no audio element. -/
theorem c8_noop_when_initialized_or_absent_witness :
    initViz {} envOk { s0 with isInitialized := true }
      = { s0 with isInitialized := true } ∧
    initViz {} envOk { s0 with audioElement := none }
      = { s0 with audioElement := none } :=
  ⟨c8_noop_when_initialized_or_absent {} envOk
      { s0 with isInitialized := true } (Or.inl rfl),
   c8_noop_when_initialized_or_absent {} envOk
      { s0 with audioElement := none } (Or.inr rfl)⟩

/-- C9: the private analyser created by a successful run carries exactly
the caller's options with the destructuring defaults fftSize 128,
smoothingTimeConstant 0.8, minDecibels -90, maxDecibels -10 applied when
an option is omitted; each supplied option is taken verbatim. -/
theorem c9_custom_analyser_config (opts : AudioVisualizerOptions)
    (env : InitEnv) (s : VisualizerState) (conn : AudioConnection)
    (n : Nat) (q : ℚ) (d1 d2 : Int)
    (hs : CanInit s) (he : SuccessEnv env conn) :
    (∃ c, (initViz opts env s).analyserRef = some c ∧
      c.fftSize = opts.fftSizeD ∧
      c.smoothingTimeConstant = opts.smoothingD ∧
      c.minDecibels = opts.minDecibelsD ∧
      c.maxDecibels = opts.maxDecibelsD) ∧
    AudioVisualizerOptions.fftSizeD {} = 128 ∧
    AudioVisualizerOptions.smoothingD {} = 0.8 ∧
    AudioVisualizerOptions.minDecibelsD {} = -90 ∧
    AudioVisualizerOptions.maxDecibelsD {} = -10 ∧
    AudioVisualizerOptions.fftSizeD { fftSize := some n } = n ∧
    AudioVisualizerOptions.smoothingD { smoothingTimeConstant := some q } = q ∧
    AudioVisualizerOptions.minDecibelsD { minDecibels := some d1 } = d1 ∧
    AudioVisualizerOptions.maxDecibelsD { maxDecibels := some d2 } = d2 := by
  obtain ⟨hc, h1, h2, hct, h3⟩ := he
  rw [initViz_run opts env s conn hs hc h1 h2 h3]
  exact ⟨⟨customAnalyserAfter opts conn s, rfl, rfl, rfl, rfl, rfl⟩,
    rfl, rfl, rfl, rfl, rfl, rfl, rfl, rfl⟩

/-- C9 witness: the configuration equations on a concrete run with empty
options and concrete supplied options. -/
theorem c9_custom_analyser_config_witness :
    (∃ c, (initViz {} envOk s0).analyserRef = some c ∧
      c.fftSize = AudioVisualizerOptions.fftSizeD {} ∧
      c.smoothingTimeConstant = AudioVisualizerOptions.smoothingD {} ∧
      c.minDecibels = AudioVisualizerOptions.minDecibelsD {} ∧
      c.maxDecibels = AudioVisualizerOptions.maxDecibelsD {}) ∧
    AudioVisualizerOptions.fftSizeD {} = 128 ∧
    AudioVisualizerOptions.smoothingD {} = 0.8 ∧
    AudioVisualizerOptions.minDecibelsD {} = -90 ∧
    AudioVisualizerOptions.maxDecibelsD {} = -10 ∧
    AudioVisualizerOptions.fftSizeD { fftSize := some 512 } = 512 ∧
    AudioVisualizerOptions.smoothingD { smoothingTimeConstant := some (1/4) } = 1/4 ∧
    AudioVisualizerOptions.minDecibelsD { minDecibels := some (-70) } = -70 ∧
    AudioVisualizerOptions.maxDecibelsD { maxDecibels := some (-5) } = -5 :=
  c9_custom_analyser_config {} envOk s0 conn0 512 (1/4) (-70) (-5)
    ⟨by decide, rfl, rfl⟩ ⟨rfl, rfl, rfl, rfl, rfl⟩

/-- C10: with the refs clear — before initialization, or after the
cleanup effect has run — `getSampleRate` returns the 44100 fallback and
`getFFTSize` returns the configured fftSize option (128 by default);
both are total functions. -/
theorem c10_fallback_accessors (opts : AudioVisualizerOptions)
    (s t : VisualizerState) (h1 : s.audioContextRef = none)
    (h2 : s.analyserRef = none) :
    getSampleRate s = 44100 ∧
    getFFTSize opts s = opts.fftSizeD ∧
    getSampleRate (cleanupViz t) = 44100 ∧
    getFFTSize opts (cleanupViz t) = opts.fftSizeD ∧
    AudioVisualizerOptions.fftSizeD {} = 128 := by
  refine ⟨?_, ?_, rfl, rfl, rfl⟩
  · unfold getSampleRate
    rw [h1]
  · unfold getFFTSize
    rw [h2]

/-- C10 witness: the fallbacks on the concrete fresh state and on the
cleaned-up result of a concrete successful run. -/
theorem c10_fallback_accessors_witness :
    getSampleRate s0 = 44100 ∧
    getFFTSize {} s0 = AudioVisualizerOptions.fftSizeD {} ∧
    getSampleRate (cleanupViz (initViz {} envOk s0)) = 44100 ∧
    getFFTSize {} (cleanupViz (initViz {} envOk s0))
      = AudioVisualizerOptions.fftSizeD {} ∧
    AudioVisualizerOptions.fftSizeD {} = 128 :=
  c10_fallback_accessors {} s0 (initViz {} envOk s0) rfl rfl
